import Mathlib

/-!
Verification of the booking-conflict and availability engine of the
hotel-booking backend (files `hotelBookingApp/models.py`,
`hotelBookingApp/serializers.py`, `hotelBookingApp/views.py`).

Modelling conventions of the shallow embedding:
* Calendar dates are integers counting days; Python date subtraction
  `(d2 - d1).days` becomes integer subtraction.
* Fixed-point decimal amounts with two fractional digits are integers in
  cents, so `100.00` is `10000`; multiplication by a whole number of
  nights is exact in both representations.
* Database rows live in Lean lists; a query-set filter becomes
  `List.filter` and `.exists()` becomes `List.any`.
* Each raise site of the Python code gets its own error constructor, so
  which check fired is observable, as it is over HTTP via the message.
-/

/-- Payment status choices of the `Booking` model (`models.py` lines 81-85). -/
inductive PaymentStatus where
  | pending
  | completed
  | failed
deriving Repr, DecidableEq

/-- The `Room` model (`models.py` lines 8-43): a room number, a type
string (single, double, suite) and a price per night in cents. -/
structure Room where
  id : Nat
  room_number : String
  room_type : String
  price_per_night : Int
deriving Repr, DecidableEq

/-- The `Booking` model (`models.py` lines 67-101): owning user (by id),
room, check-in and check-out dates, the derived total price (absent until
the first save) and the payment status. -/
structure Booking where
  id : Nat
  user : Nat
  room : Room
  check_in_date : Int
  check_out_date : Int
  total_booking_price : Option Int
  payment_status : PaymentStatus
deriving Repr, DecidableEq

/-- One raise site of `BookingSerializer.validate` per constructor
(`serializers.py` lines 64-84): the date-order check, the exact-duplicate
check and the overlap check.  The latter two raise the same message,
"The room is already booked for the selected dates.", the conflict
rejection; the first raises "Check-in date must be before check-out
date.". -/
inductive BookingError where
  | dateOrder
  | duplicate
  | overlap
deriving Repr, DecidableEq

/-- Whether a booking error is the conflict rejection, i.e. carries the
message "The room is already booked for the selected dates.". -/
def BookingError.isConflict : BookingError → Bool
  | .dateOrder => false
  | .duplicate => true
  | .overlap => true

/-- `BookingSerializer.validate` (`serializers.py` lines 58-86): reject
when check-in is after check-out, then when the exact same booking
already exists, then when some booking on the same room overlaps the
candidate under the half-open test `existing.check_in < candidate.check_out
AND existing.check_out > candidate.check_in`. -/
def bookingValidate (store : List Booking) (room : Room) (ci co : Int) :
    Option BookingError :=
  if ci > co then
    some .dateOrder
  else if store.any (fun b =>
      b.room.id == room.id && b.check_in_date == ci && b.check_out_date == co) then
    some .duplicate
  else if store.any (fun b =>
      b.room.id == room.id && b.check_in_date < co && b.check_out_date > ci) then
    some .overlap
  else
    none

/-- `Booking.save` (`models.py` lines 108-117): recompute the total price
as nights times the price per night of the room, where nights is the
whole-day difference, floored at one night when the difference is zero. -/
def bookingSave (b : Booking) : Booking :=
  let num_nights := b.check_out_date - b.check_in_date
  let num_nights := if num_nights = 0 then 1 else num_nights
  { b with total_booking_price := some (num_nights * b.room.price_per_night) }

/-- Fresh primary key for a new booking row: one more than the largest id
in the store (the auto-increment of the database). -/
def nextBookingId (store : List Booking) : Nat :=
  store.foldr (fun b acc => max b.id acc) 0 + 1

/-- `BoookingViewSet.create` plus `perform_create` (`views.py` lines
111-137): run the serializer validation; on failure the store is
unchanged and the error is returned; on success the booking is saved for
the requesting user (which computes its price, `models.py` line 116) and
appended to the store. -/
def createBookingRun (store : List Booking) (user : Nat) (room : Room)
    (ci co : Int) : List Booking × Option BookingError :=
  match bookingValidate store room ci co with
  | some e => (store, some e)
  | none =>
    let b := bookingSave
      { id := nextBookingId store, user := user, room := room,
        check_in_date := ci, check_out_date := co,
        total_booking_price := none, payment_status := .pending }
    (store ++ [b], none)

/-- One booking-create request: requesting user, target room, dates. -/
structure BookingRequest where
  user : Nat
  room : Room
  check_in_date : Int
  check_out_date : Int
deriving Repr, DecidableEq

/-- Sequential processing of booking-create requests starting from the
empty store, each accepted booking persisted before the next request. -/
def processRequests (reqs : List BookingRequest) : List Booking :=
  reqs.foldl
    (fun store q =>
      (createBookingRun store q.user q.room q.check_in_date q.check_out_date).1)
    []

/-- The half-open interval overlap relation of the spec on stored
bookings: `a.check_in < b.check_out AND a.check_out > b.check_in`. -/
def bookingOverlap (a b : Booking) : Prop :=
  a.check_in_date < b.check_out_date ∧ a.check_out_date > b.check_in_date

instance (a b : Booking) : Decidable (bookingOverlap a b) := by
  unfold bookingOverlap; infer_instance

/-- No two bookings of the store on the same room overlap (half-open). -/
def noRoomOverlap (store : List Booking) : Prop :=
  List.Pairwise (fun a b => a.room.id = b.room.id → ¬ bookingOverlap a b) store

instance (store : List Booking) : Decidable (noRoomOverlap store) := by
  unfold noRoomOverlap; infer_instance

/-- Some stored booking on the room of the candidate overlaps the
candidate interval under the half-open test. -/
def existsOverlap (store : List Booking) (room : Room) (ci co : Int) : Prop :=
  ∃ b ∈ store, b.room.id = room.id ∧ b.check_in_date < co ∧ b.check_out_date > ci

instance (store : List Booking) (room : Room) (ci co : Int) :
    Decidable (existsOverlap store room ci co) := by
  unfold existsOverlap; infer_instance

/-- `RoomViewSet.available_rooms` (`views.py` lines 29-82), dates already
parsed and present: collect the room ids of bookings matching
`check_in_date <= check_out AND check_out_date >= check_in` (the lte/gte
filter of line 59), exclude those rooms from all rooms, then filter by
room type when one is supplied. -/
def available_rooms (rooms : List Room) (bookings : List Booking)
    (check_in_date check_out_date : Int) (room_type : Option String) :
    List Room :=
  let booked_rooms :=
    (bookings.filter (fun b =>
      b.check_in_date ≤ check_out_date && b.check_out_date ≥ check_in_date)).map
      (fun b => b.room.id)
  let avail := rooms.filter (fun r => !(booked_rooms.contains r.id))
  match room_type with
  | some t => avail.filter (fun r => r.room_type == t)
  | none => avail

/-- The endpoint guard of `views.py` lines 46-55: both query dates must
be present, else a usage error. -/
def availableRoomsEndpoint (rooms : List Room) (bookings : List Booking)
    (ci co : Option Int) (room_type : Option String) :
    Except String (List Room) :=
  match ci, co with
  | some ci, some co => .ok (available_rooms rooms bookings ci co room_type)
  | _, _ => .error "Please provide both check_in_date and check_out_date."

/-- The `Payment` model (`models.py` lines 128-150): one row per booking
(referenced by id), card data as stored, amount in cents. -/
structure Payment where
  booking_id : Nat
  card_number : String
  card_expiry : String
  card_cvv : String
  amount : Int
deriving Repr, DecidableEq

/-- One rejection site of `PaymentViewSet.create` and of the payment
serializer per constructor (`views.py` lines 216-227 and 254,
`serializers.py` lines 156-168). -/
inductive PaymentError where
  | notFound
  | alreadyCompleted
  | invalidCardNumber
  | invalidCvv
  | paymentFailed
deriving Repr, DecidableEq

/-- Application state seen by the payment workflow: the booking rows and
the payment rows. -/
structure AppState where
  bookings : List Booking
  payments : List Payment
deriving Repr, DecidableEq

/-- `PaymentSerializer.validate_card_number` (`serializers.py` lines
156-161) as a predicate: all characters are digits and the length is 16. -/
def validCardNumber (s : String) : Bool :=
  s.data.all Char.isDigit && s.data.length == 16

/-- `PaymentSerializer.validate_card_cvv` (`serializers.py` lines
163-168) as a predicate: all characters are digits and the length is 3. -/
def validCvv (s : String) : Bool :=
  s.data.all Char.isDigit && s.data.length == 3

/-- The Python slice `value[-4:]`: the last four characters. -/
def pyLastFour (s : List Char) : List Char :=
  s.drop (s.length - 4)

/-- The Python `str.strip()`: drop whitespace from both ends. -/
def pyStrip (s : List Char) : List Char :=
  ((s.dropWhile Char.isWhitespace).reverse.dropWhile Char.isWhitespace).reverse

/-- `PaymentSerializer.create` (`serializers.py` lines 148-154): replace
the card number by the mask prefix followed by its last four characters. -/
def maskCardNumber (cn : String) : String :=
  "**** **** **** " ++ String.mk (pyLastFour cn.data)

/-- `Payment.save` (`models.py` lines 153-158): strip surrounding
whitespace from the stored card number. -/
def paymentSave (p : Payment) : Payment :=
  { p with card_number := String.mk (pyStrip p.card_number.data) }

/-- The simulated gateway outcome of `views.py` line 239:
`payment_successful = True`. -/
def paymentSuccessful : Bool := true

/-- The lookup key of `views.py` line 215: row id and owning user. -/
def bookingKeyMatch (bookingId userId : Nat) (b : Booking) : Bool :=
  b.id == bookingId && b.user == userId

/-- The booking lookup of `views.py` line 215:
`Booking.objects.get(id=booking_id, user=request.user)`. -/
def findBooking (st : AppState) (bookingId userId : Nat) : Option Booking :=
  st.bookings.find? (bookingKeyMatch bookingId userId)

/-- `PaymentViewSet.create` (`views.py` lines 209-254): look up the
booking of the requesting user (404 otherwise); reject when its payment
status is already completed; validate the card number and CVV formats;
the client-submitted amount is dropped (a read-only serializer field,
`serializers.py` line 146) and the charge amount is taken from the room;
on the simulated success, persist the masked and stripped payment row,
mark the booking completed and re-save it; the dead failure branch would
mark it failed instead. -/
def createPayment (st : AppState) (userId bookingId : Nat)
    (card_number card_expiry card_cvv : String) (clientAmount : Option Int) :
    AppState × Option PaymentError :=
  match findBooking st bookingId userId with
  | none => (st, some .notFound)
  | some booking =>
    if booking.payment_status == .completed then
      (st, some .alreadyCompleted)
    else if !validCardNumber card_number then
      (st, some .invalidCardNumber)
    else if !validCvv card_cvv then
      (st, some .invalidCvv)
    else
      if paymentSuccessful then
        let p := paymentSave
          { booking_id := bookingId,
            card_number := maskCardNumber card_number,
            card_expiry := card_expiry, card_cvv := card_cvv,
            amount := booking.room.price_per_night }
        let bookings := st.bookings.map (fun b =>
          if b.id == bookingId then
            bookingSave { b with payment_status := .completed }
          else b)
        ({ bookings := bookings, payments := st.payments ++ [p] }, none)
      else
        let bookings := st.bookings.map (fun b =>
          if b.id == bookingId then
            bookingSave { b with payment_status := .failed }
          else b)
        ({ st with bookings := bookings }, some .paymentFailed)

/-- Number of payment rows stored for a given booking. -/
def paymentsFor (st : AppState) (bookingId : Nat) : Nat :=
  (st.payments.filter (fun p => p.booking_id == bookingId)).length

/-- Some stored booking has exactly the candidate room, check-in and
check-out (the filter of `serializers.py` lines 70-74). -/
def existsDuplicate (store : List Booking) (room : Room) (ci co : Int) : Prop :=
  ∃ b ∈ store, b.room.id = room.id ∧ b.check_in_date = ci ∧ b.check_out_date = co

instance (store : List Booking) (room : Room) (ci co : Int) :
    Decidable (existsDuplicate store room ci co) := by
  unfold existsDuplicate; infer_instance

/-- A sample room used by concrete instances: single, 100.00 per night. -/
def sampleRoom : Room :=
  { id := 1, room_number := "1", room_type := "single", price_per_night := 10000 }

/-- The serializer validation accepts exactly when the dates are not
inverted, no exact duplicate exists and no half-open overlap exists. -/
lemma bookingValidate_eq_none_iff (store : List Booking) (room : Room) (ci co : Int) :
    bookingValidate store room ci co = none ↔
      ci ≤ co ∧ ¬ existsDuplicate store room ci co ∧ ¬ existsOverlap store room ci co := by
  unfold bookingValidate existsDuplicate existsOverlap
  by_cases h1 : ci > co
  · simp only [if_pos h1]
    simp [not_le.mpr h1]
  · simp only [if_neg h1]
    by_cases h2 : store.any (fun b =>
        b.room.id == room.id && b.check_in_date == ci && b.check_out_date == co)
    · simp only [if_pos h2]
      simp only [List.any_eq_true, Bool.and_eq_true, beq_iff_eq, decide_eq_true_eq] at h2
      simp only [reduceCtorEq, false_iff]
      intro hc
      exact hc.2.1 (by obtain ⟨b, hb, h⟩ := h2; exact ⟨b, hb, h.1.1, h.1.2, h.2⟩)
    · simp only [if_neg h2]
      by_cases h3 : store.any (fun b =>
          b.room.id == room.id && b.check_in_date < co && b.check_out_date > ci)
      · simp only [if_pos h3]
        simp only [List.any_eq_true, Bool.and_eq_true, beq_iff_eq,
          decide_eq_true_eq] at h3
        simp only [reduceCtorEq, false_iff]
        intro hc
        exact hc.2.2 (by obtain ⟨b, hb, h⟩ := h3; exact ⟨b, hb, h.1.1, h.1.2, h.2⟩)
      · simp only [if_neg h3, true_iff]
        simp only [List.any_eq_true, Bool.and_eq_true, beq_iff_eq,
          decide_eq_true_eq] at h2 h3
        refine ⟨not_lt.mp h1, ?_, ?_⟩
        · rintro ⟨b, hb, hr, hci, hco⟩
          exact h2 ⟨b, hb, ⟨hr, hci⟩, hco⟩
        · rintro ⟨b, hb, hr, hci, hco⟩
          exact h3 ⟨b, hb, ⟨hr, hci⟩, hco⟩

/-- On a validation error the view returns the error and the store
unchanged. -/
lemma createBookingRun_some (store : List Booking) (u : Nat) (room : Room)
    (ci co : Int) (e : BookingError)
    (h : bookingValidate store room ci co = some e) :
    createBookingRun store u room ci co = (store, some e) := by
  unfold createBookingRun
  rw [h]

/-- On successful validation the saved booking is appended to the store. -/
lemma createBookingRun_none (store : List Booking) (u : Nat) (room : Room)
    (ci co : Int) (h : bookingValidate store room ci co = none) :
    createBookingRun store u room ci co =
      (store ++ [bookingSave
        { id := nextBookingId store, user := u, room := room,
          check_in_date := ci, check_out_date := co,
          total_booking_price := none, payment_status := .pending }], none) := by
  unfold createBookingRun
  rw [h]

/-- When the dates are not inverted, any rejection is the duplicate or
the overlap one, both carrying the conflict message. -/
lemma bookingValidate_some_of_le (store : List Booking) (room : Room)
    (ci co : Int) (e : BookingError) (hle : ci ≤ co)
    (h : bookingValidate store room ci co = some e) :
    e = .duplicate ∨ e = .overlap := by
  unfold bookingValidate at h
  rw [if_neg (not_lt.mpr hle)] at h
  by_cases h2 : store.any (fun b =>
      b.room.id == room.id && b.check_in_date == ci && b.check_out_date == co)
  · rw [if_pos h2] at h
    exact Or.inl (Option.some.inj h).symm
  · rw [if_neg h2] at h
    by_cases h3 : store.any (fun b =>
        b.room.id == room.id && b.check_in_date < co && b.check_out_date > ci)
    · rw [if_pos h3] at h
      exact Or.inr (Option.some.inj h).symm
    · rw [if_neg h3] at h
      exact absurd h (by simp)

/-- Accepting a candidate preserves the pairwise no-overlap property of
the store: the overlap check rejected everything that clashes. -/
lemma noRoomOverlap_createBookingRun (store : List Booking) (u : Nat)
    (room : Room) (ci co : Int) (h : noRoomOverlap store) :
    noRoomOverlap (createBookingRun store u room ci co).1 := by
  cases hv : bookingValidate store room ci co with
  | some e =>
    rw [createBookingRun_some store u room ci co e hv]
    exact h
  | none =>
    rw [createBookingRun_none store u room ci co hv]
    have hno : ¬ existsOverlap store room ci co :=
      ((bookingValidate_eq_none_iff store room ci co).mp hv).2.2
    unfold noRoomOverlap at h ⊢
    rw [List.pairwise_append]
    refine ⟨h, by simp, ?_⟩
    intro a ha b hb
    simp only [List.mem_singleton] at hb
    subst hb
    intro hroom hov
    simp only [bookingSave] at hroom hov
    unfold bookingOverlap at hov
    exact hno ⟨a, ha, hroom, hov.1, hov.2⟩

/-- The no-overlap property holds along any run of sequential requests. -/
lemma noRoomOverlap_foldl (reqs : List BookingRequest) (store : List Booking)
    (h : noRoomOverlap store) :
    noRoomOverlap (reqs.foldl
      (fun s q => (createBookingRun s q.user q.room q.check_in_date q.check_out_date).1)
      store) := by
  induction reqs generalizing store with
  | nil => exact h
  | cons q t ih =>
    exact ih _ (noRoomOverlap_createBookingRun store q.user q.room
      q.check_in_date q.check_out_date h)

/-- C1 (amended): processing booking-create requests sequentially from
the empty store keeps the store free of same-room half-open overlaps; a
candidate with check_in ≤ check_out whose interval overlaps a stored
booking of the same room is rejected with a conflict error and the store
is unchanged; a candidate with inverted dates is rejected by the
date-order validation instead, the store likewise unchanged. -/
theorem c1_booking_no_overlap :
    (∀ reqs : List BookingRequest, noRoomOverlap (processRequests reqs)) ∧
    (∀ (store : List Booking) (u : Nat) (room : Room) (ci co : Int),
      ci ≤ co → existsOverlap store room ci co →
      ∃ e, createBookingRun store u room ci co = (store, some e) ∧
        e.isConflict = true) ∧
    (∀ (store : List Booking) (u : Nat) (room : Room) (ci co : Int),
      ci > co → createBookingRun store u room ci co = (store, some .dateOrder)) := by
  refine ⟨?_, ?_, ?_⟩
  · intro reqs
    exact noRoomOverlap_foldl reqs [] (by simp [noRoomOverlap])
  · intro store u room ci co hle hov
    cases hv : bookingValidate store room ci co with
    | none =>
      exact absurd hov ((bookingValidate_eq_none_iff store room ci co).mp hv).2.2
    | some e =>
      refine ⟨e, createBookingRun_some store u room ci co e hv, ?_⟩
      rcases bookingValidate_some_of_le store room ci co e hle hv with h | h <;>
        simp [h, BookingError.isConflict]
  · intro store u room ci co hgt
    apply createBookingRun_some
    unfold bookingValidate
    rw [if_pos hgt]

/-- Witness for C1: one accepted booking on the sample room, then an
overlapping candidate, rejected with the conflict error; and an
inverted-dates candidate rejected by the date-order check. -/
theorem c1_booking_no_overlap_witness :
    noRoomOverlap (processRequests [⟨1, sampleRoom, 2, 5⟩, ⟨2, sampleRoom, 3, 6⟩]) ∧
    (∃ e, createBookingRun (processRequests [⟨1, sampleRoom, 2, 5⟩]) 2 sampleRoom 3 6 =
        (processRequests [⟨1, sampleRoom, 2, 5⟩], some e) ∧ e.isConflict = true) ∧
    createBookingRun [] 1 sampleRoom 5 3 = ([], some .dateOrder) :=
  ⟨c1_booking_no_overlap.1 _,
   c1_booking_no_overlap.2.1 _ 2 sampleRoom 3 6 (by decide) (by decide),
   c1_booking_no_overlap.2.2 [] 1 sampleRoom 5 3 (by decide)⟩

/-- Counterexample for C1 as frozen: a candidate with inverted dates that
satisfies the overlap formula against the stored booking is rejected by
the date-order check, whose error is not the conflict one. -/
theorem c1_booking_no_overlap_counterexample :
    existsOverlap (processRequests [⟨1, sampleRoom, 2, 5⟩]) sampleRoom 4 3 ∧
    createBookingRun (processRequests [⟨1, sampleRoom, 2, 5⟩]) 1 sampleRoom 4 3 =
      (processRequests [⟨1, sampleRoom, 2, 5⟩], some .dateOrder) ∧
    BookingError.dateOrder.isConflict = false := by decide

/-- C2 (amended): a booking-create request is rejected by the date check,
with the store unchanged, exactly when check-in is strictly after
check-out; a request with check_in = check_out passes the date check and
is accepted when no duplicate and no overlap applies. -/
theorem c2_date_order_rejection :
    (∀ (store : List Booking) (u : Nat) (room : Room) (ci co : Int),
      ci > co → createBookingRun store u room ci co = (store, some .dateOrder)) ∧
    (∀ (store : List Booking) (u : Nat) (room : Room) (d : Int),
      ¬ existsDuplicate store room d d → ¬ existsOverlap store room d d →
      (createBookingRun store u room d d).2 = none) := by
  constructor
  · intro store u room ci co hgt
    apply createBookingRun_some
    unfold bookingValidate
    rw [if_pos hgt]
  · intro store u room d hdup hov
    rw [createBookingRun_none store u room d d
      ((bookingValidate_eq_none_iff store room d d).mpr ⟨le_refl d, hdup, hov⟩)]

/-- Witness for C2: an inverted range is rejected with the date-order
error; an equal-dates request on a fresh store is accepted. -/
theorem c2_date_order_rejection_witness :
    createBookingRun [] 2 sampleRoom 5 3 = ([], some .dateOrder) ∧
    (createBookingRun [] 1 sampleRoom 0 0).2 = none :=
  ⟨c2_date_order_rejection.1 [] 2 sampleRoom 5 3 (by decide),
   c2_date_order_rejection.2 [] 1 sampleRoom 0 (by decide) (by decide)⟩

/-- Counterexample for C2 as frozen: a request with check_in =
check_out is accepted and a booking is persisted, not rejected. -/
theorem c2_date_order_rejection_counterexample :
    (createBookingRun [] 1 sampleRoom 0 0).2 = none ∧
    (createBookingRun [] 1 sampleRoom 0 0).1 ≠ [] := by decide

/-- C3 evaluated at its failing input: the availability filter of the
view uses the closed test (lte/gte), so the room whose only booking,
[0, 5), ends exactly where the query [5, 7) begins is excluded — even
though no booking overlaps the query under the half-open test — while a
store with no bookings yields every room. -/
theorem c3_availability_boundary_eval :
    processRequests [⟨1, sampleRoom, 0, 5⟩]
      = [bookingSave
          { id := 1, user := 1, room := sampleRoom, check_in_date := 0,
            check_out_date := 5, total_booking_price := none,
            payment_status := .pending }] ∧
    available_rooms [sampleRoom] (processRequests [⟨1, sampleRoom, 0, 5⟩]) 5 7 none
      = [] ∧
    ¬ ((bookingSave
          { id := 1, user := 1, room := sampleRoom, check_in_date := 0,
            check_out_date := 5, total_booking_price := none,
            payment_status := .pending }).check_in_date < 7 ∧
       (bookingSave
          { id := 1, user := 1, room := sampleRoom, check_in_date := 0,
            check_out_date := 5, total_booking_price := none,
            payment_status := .pending }).check_out_date > 5) ∧
    available_rooms [sampleRoom] [] 5 7 none = [sampleRoom] := by decide

/-- C4: when the only booking stored on the target room abuts the
candidate (the candidate ends where it starts, or starts where it ends)
and the candidate dates are strictly ordered, the request is accepted
and the saved booking appended to the store. -/
theorem c4_abutting_accepted : ∀ (store : List Booking) (u : Nat) (room : Room)
    (ci co : Int) (ex : Booking),
    ex ∈ store →
    (∀ b ∈ store, b.room.id = room.id → b = ex) →
    ex.room.id = room.id →
    ci < co →
    (co = ex.check_in_date ∨ ci = ex.check_out_date) →
    createBookingRun store u room ci co =
      (store ++ [bookingSave
        { id := nextBookingId store, user := u, room := room,
          check_in_date := ci, check_out_date := co,
          total_booking_price := none, payment_status := .pending }], none) := by
  intro store u room ci co ex _hmem honly _hexroom hlt habut
  apply createBookingRun_none
  apply (bookingValidate_eq_none_iff store room ci co).mpr
  refine ⟨le_of_lt hlt, ?_, ?_⟩
  · rintro ⟨b, hb, hr, hci, hco⟩
    have hbex : b = ex := honly b hb hr
    subst hbex
    rcases habut with h | h <;> omega
  · rintro ⟨b, hb, hr, hci, hco⟩
    have hbex : b = ex := honly b hb hr
    subst hbex
    rcases habut with h | h <;> omega

/-- Witness for C4: the sample room holds only the booking [2, 5); the
abutting request [0, 2) is accepted and persisted. -/
theorem c4_abutting_accepted_witness :
    createBookingRun (processRequests [⟨1, sampleRoom, 2, 5⟩]) 2 sampleRoom 0 2 =
      (processRequests [⟨1, sampleRoom, 2, 5⟩] ++ [bookingSave
        { id := nextBookingId (processRequests [⟨1, sampleRoom, 2, 5⟩]), user := 2,
          room := sampleRoom, check_in_date := 0, check_out_date := 2,
          total_booking_price := none, payment_status := .pending }], none) :=
  c4_abutting_accepted _ 2 sampleRoom 0 2
    (bookingSave
      { id := 1, user := 1, room := sampleRoom, check_in_date := 2,
        check_out_date := 5, total_booking_price := none,
        payment_status := .pending })
    (by decide) (by decide) (by decide) (by decide) (by decide)

/-- C5: every save recomputes the total price as nights times the price
per night of the room, nights being the day difference floored at one,
whatever total was cached before; a stay from day 0 to day 3 (three
nights) at 100.00 per night (10000 cents) totals 300.00 (30000 cents). -/
theorem c5_price_derivation :
    (∀ b : Booking,
      (bookingSave b).total_booking_price =
        some ((if b.check_out_date - b.check_in_date = 0 then 1
              else b.check_out_date - b.check_in_date) * b.room.price_per_night)) ∧
    (bookingSave
      { id := 1, user := 1, room := sampleRoom, check_in_date := 0,
        check_out_date := 3, total_booking_price := none,
        payment_status := .pending }).total_booking_price = some 30000 :=
  ⟨fun _ => rfl, by decide⟩

/-- C9: a candidate exactly matching a stored booking on room, check-in
and check-out is rejected by the dedicated duplicate check, and a
zero-length duplicate is one the half-open overlap test would not flag. -/
theorem c9_exact_duplicate_rejected : ∀ (store : List Booking) (u : Nat)
    (room : Room) (ci co : Int) (b : Booking),
    b ∈ store → b.room.id = room.id → b.check_in_date = ci →
    b.check_out_date = co → ci ≤ co →
    createBookingRun store u room ci co = (store, some .duplicate) ∧
    (ci = co → ¬ (b.check_in_date < co ∧ b.check_out_date > ci)) := by
  intro store u room ci co b hb hr hci hco hle
  constructor
  · apply createBookingRun_some
    unfold bookingValidate
    have hdup : store.any (fun b =>
        b.room.id == room.id && b.check_in_date == ci && b.check_out_date == co)
        = true := by
      simp only [List.any_eq_true, Bool.and_eq_true, beq_iff_eq, decide_eq_true_eq]
      exact ⟨b, hb, ⟨hr, hci⟩, hco⟩
    rw [if_neg (not_lt.mpr hle), if_pos hdup]
  · intro heq hovl
    omega

/-- Witness for C9: a stored zero-length booking [5, 5) on the sample
room; the identical request is rejected as a duplicate although the
half-open overlap test does not flag it. -/
theorem c9_exact_duplicate_rejected_witness :
    createBookingRun (processRequests [⟨1, sampleRoom, 5, 5⟩]) 2 sampleRoom 5 5 =
      (processRequests [⟨1, sampleRoom, 5, 5⟩], some .duplicate) ∧
    ((5 : Int) = 5 → ¬ ((bookingSave
      { id := 1, user := 1, room := sampleRoom, check_in_date := 5,
        check_out_date := 5, total_booking_price := none,
        payment_status := .pending }).check_in_date < 5 ∧
      (bookingSave
      { id := 1, user := 1, room := sampleRoom, check_in_date := 5,
        check_out_date := 5, total_booking_price := none,
        payment_status := .pending }).check_out_date > 5)) :=
  c9_exact_duplicate_rejected _ 2 sampleRoom 5 5
    (bookingSave
      { id := 1, user := 1, room := sampleRoom, check_in_date := 5,
        check_out_date := 5, total_booking_price := none,
        payment_status := .pending })
    (by decide) (by decide) (by decide) (by decide) (by decide)

/-- A payment request on a booking already completed is rejected with the
conflict response and the state unchanged. -/
lemma createPayment_already (st : AppState) (u bid : Nat) (cn ce cv : String)
    (amt : Option Int) (b : Booking)
    (h : findBooking st bid u = some b) (hb : b.payment_status = .completed) :
    createPayment st u bid cn ce cv amt = (st, some .alreadyCompleted) := by
  unfold createPayment
  rw [h]
  simp [hb]

/-- The success path of the payment view, fully characterized. -/
lemma createPayment_success (st : AppState) (u bid : Nat) (cn ce cv : String)
    (amt : Option Int) (b : Booking)
    (h : findBooking st bid u = some b)
    (hb : b.payment_status ≠ .completed)
    (hcn : validCardNumber cn = true)
    (hcv : validCvv cv = true) :
    createPayment st u bid cn ce cv amt =
      ({ bookings := st.bookings.map (fun x =>
            if x.id == bid then bookingSave { x with payment_status := .completed }
            else x),
         payments := st.payments ++ [paymentSave
           { booking_id := bid, card_number := maskCardNumber cn,
             card_expiry := ce, card_cvv := cv,
             amount := b.room.price_per_night }] }, none) := by
  unfold createPayment
  rw [h]
  have hb' : (b.payment_status == .completed) = false := by
    simp [hb]
  simp [hb', hcn, hcv, paymentSuccessful]

/-- A successful payment run can only have come through the success
path: the booking was found, not yet completed, the card data valid, and
the resulting state is the success-path state. -/
lemma createPayment_none_inv (st : AppState) (u bid : Nat) (cn ce cv : String)
    (amt : Option Int) (st' : AppState)
    (hrun : createPayment st u bid cn ce cv amt = (st', none)) :
    ∃ b, findBooking st bid u = some b ∧ b.payment_status ≠ .completed ∧
      validCardNumber cn = true ∧ validCvv cv = true ∧
      st' = { bookings := st.bookings.map (fun x =>
                if x.id == bid then bookingSave { x with payment_status := .completed }
                else x),
              payments := st.payments ++ [paymentSave
                { booking_id := bid, card_number := maskCardNumber cn,
                  card_expiry := ce, card_cvv := cv,
                  amount := b.room.price_per_night }] } := by
  cases hfind : findBooking st bid u with
  | none =>
    unfold createPayment at hrun
    rw [hfind] at hrun
    simp at hrun
  | some b =>
    by_cases hb : b.payment_status = .completed
    · rw [createPayment_already st u bid cn ce cv amt b hfind hb] at hrun
      simp at hrun
    · by_cases hcn : validCardNumber cn = true
      · by_cases hcv : validCvv cv = true
        · refine ⟨b, rfl, hb, hcn, hcv, ?_⟩
          rw [createPayment_success st u bid cn ce cv amt b hfind hb hcn hcv] at hrun
          exact (congrArg Prod.fst hrun).symm
        · unfold createPayment at hrun
          rw [hfind] at hrun
          have hb' : (b.payment_status == .completed) = false := by simp [hb]
          rw [Bool.not_eq_true] at hcv
          simp [hb', hcn, hcv] at hrun
      · unfold createPayment at hrun
        rw [hfind] at hrun
        have hb' : (b.payment_status == .completed) = false := by simp [hb]
        rw [Bool.not_eq_true] at hcn
        simp [hb', hcn] at hrun

/-- Marking the found booking completed leaves it findable by the same
lookup, now completed. -/
lemma find_update_completed (l : List Booking) (bid u : Nat) (b : Booking)
    (h : l.find? (bookingKeyMatch bid u) = some b) :
    (l.map (fun x =>
      if x.id == bid then bookingSave { x with payment_status := .completed }
      else x)).find? (bookingKeyMatch bid u)
      = some (bookingSave { b with payment_status := .completed }) := by
  induction l with
  | nil => simp at h
  | cons a t ih =>
    by_cases ha : bookingKeyMatch bid u a = true
    · rw [List.find?_cons_of_pos _ ha] at h
      have hab : a = b := Option.some.inj h
      subst hab
      have haid : (a.id == bid) = true := by
        unfold bookingKeyMatch at ha
        exact (Bool.and_eq_true _ _ ▸ ha).1
      simp only [List.map_cons, if_pos haid]
      exact List.find?_cons_of_pos _
        (show bookingKeyMatch bid u
          (bookingSave { a with payment_status := .completed }) = true from ha)
    · rw [List.find?_cons_of_neg _ ha] at h
      have ht := ih h
      by_cases haid : (a.id == bid) = true
      · simp only [List.map_cons, if_pos haid]
        rw [List.find?_cons_of_neg _
          (show ¬ bookingKeyMatch bid u
            (bookingSave { a with payment_status := .completed }) = true from ha)]
        exact ht
      · simp only [List.map_cons, if_neg haid]
        rw [List.find?_cons_of_neg _ ha]
        exact ht

/-- A digit character is not whitespace. -/
lemma isDigit_not_isWhitespace (c : Char) (h : c.isDigit = true) :
    c.isWhitespace = false := by
  by_contra hw
  rw [Bool.not_eq_false] at hw
  simp only [Char.isWhitespace, Bool.or_eq_true, decide_eq_true_eq] at hw
  rcases hw with ((hw | hw) | hw) | hw <;> subst hw <;> exact absurd h (by decide)

/-- Dropping leading whitespace does nothing when the first character is
not whitespace. -/
lemma dropWhile_eq_self_of_head (l : List Char) (a : Char)
    (ha : l.head? = some a) (hw : a.isWhitespace = false) :
    l.dropWhile Char.isWhitespace = l := by
  cases l with
  | nil => simp at ha
  | cons x t =>
    have hx : x = a := by simpa using ha
    subst hx
    simp [List.dropWhile_cons, hw]

/-- Stripping does nothing when neither end of the string is whitespace. -/
lemma pyStrip_eq_self (l : List Char) (a b : Char)
    (hhead : l.head? = some a) (hwa : a.isWhitespace = false)
    (hlast : l.getLast? = some b) (hwb : b.isWhitespace = false) :
    pyStrip l = l := by
  unfold pyStrip
  rw [dropWhile_eq_self_of_head l a hhead hwa]
  rw [dropWhile_eq_self_of_head l.reverse b (by
    rw [← List.getLast?_eq_head?_reverse]; exact hlast) hwb]
  exact l.reverse_reverse

/-- The masked card number is the literal mask prefix followed by the
last four characters of the card number. -/
lemma maskCardNumber_data (cn : String) (h16 : cn.data.length = 16) :
    (maskCardNumber cn).data = "**** **** **** ".data ++ cn.data.drop 12 := by
  unfold maskCardNumber pyLastFour
  rw [String.data_append, h16]

/-- The model save (strip) leaves the masked card number unchanged: it
starts with a mask character and ends with a digit. -/
lemma pyStrip_mask_data (cn : String)
    (hall : ∀ c ∈ cn.data, c.isDigit = true) (h16 : cn.data.length = 16) :
    pyStrip (maskCardNumber cn).data = "**** **** **** ".data ++ cn.data.drop 12 := by
  rw [maskCardNumber_data cn h16]
  have hne : cn.data.drop 12 ≠ [] := by
    have : (cn.data.drop 12).length = 4 := by rw [List.length_drop, h16]
    intro hcontra
    rw [hcontra] at this
    simp at this
  cases hlast : (cn.data.drop 12).getLast? with
  | none =>
    rw [List.getLast?_eq_none_iff] at hlast
    exact absurd hlast hne
  | some c =>
    have hcmem : c ∈ cn.data.drop 12 := List.mem_of_getLast?_eq_some hlast
    have hcdig : c.isDigit = true := hall c (List.mem_of_mem_drop hcmem)
    refine pyStrip_eq_self _ '*' c ?_ (by decide) ?_
      (isDigit_not_isWhitespace c hcdig)
    · rfl
    · rw [List.getLast?_append_of_ne_nil _ hne]
      exact hlast

/-- The digits remaining in the stored card value are exactly the last
four digits of the submitted number. -/
lemma filter_digits_mask (cn : String)
    (hall : ∀ c ∈ cn.data, c.isDigit = true) :
    ("**** **** **** ".data ++ cn.data.drop 12).filter (fun c => c.isDigit)
      = cn.data.drop 12 := by
  rw [List.filter_append]
  have h1 : "**** **** **** ".data.filter (fun c => c.isDigit) = [] := by decide
  rw [h1, List.nil_append, List.filter_eq_self]
  intro a ha
  exact hall a (List.mem_of_mem_drop ha)

/-- C6: a payment request against a booking already completed is
rejected with the conflict response and the state is unchanged, so no
payment row appears; otherwise, for the booking of the requester with
valid card data and no payment row yet, the request succeeds, after
which the booking is completed, exactly one payment row exists for it,
and the identical request is rejected. -/
theorem c6_payment_double_rejection :
    (∀ (st : AppState) (u bid : Nat) (cn ce cv : String) (amt : Option Int)
      (b : Booking),
      findBooking st bid u = some b →
      b.payment_status = .completed →
      createPayment st u bid cn ce cv amt = (st, some .alreadyCompleted)) ∧
    (∀ (st : AppState) (u bid : Nat) (cn ce cv : String) (amt : Option Int)
      (b : Booking),
      findBooking st bid u = some b →
      b.payment_status ≠ .completed →
      validCardNumber cn = true →
      validCvv cv = true →
      paymentsFor st bid = 0 →
      ∃ st', createPayment st u bid cn ce cv amt = (st', none) ∧
        (∃ b', findBooking st' bid u = some b' ∧ b'.payment_status = .completed) ∧
        paymentsFor st' bid = 1 ∧
        createPayment st' u bid cn ce cv amt = (st', some .alreadyCompleted)) := by
  constructor
  · intro st u bid cn ce cv amt b hfind hb
    exact createPayment_already st u bid cn ce cv amt b hfind hb
  · intro st u bid cn ce cv amt b hfind hb hcn hcv hpay0
    refine ⟨_, createPayment_success st u bid cn ce cv amt b hfind hb hcn hcv,
      ?_, ?_, ?_⟩
    · exact ⟨bookingSave { b with payment_status := .completed },
        find_update_completed st.bookings bid u b hfind, rfl⟩
    · show ((st.payments ++ [paymentSave
          { booking_id := bid, card_number := maskCardNumber cn,
            card_expiry := ce, card_cvv := cv,
            amount := b.room.price_per_night }]).filter
          (fun p => p.booking_id == bid)).length = 1
      unfold paymentsFor at hpay0
      rw [List.filter_append, List.length_append, hpay0]
      simp [paymentSave]
    · exact createPayment_already _ u bid cn ce cv amt
        (bookingSave { b with payment_status := .completed })
        (find_update_completed st.bookings bid u b hfind) rfl

/-- Witness for C6: a completed booking rejects payment; a pending
booking accepts it once and rejects the identical retry. -/
theorem c6_payment_double_rejection_witness :
    createPayment
        (AppState.mk [⟨1, 1, sampleRoom, 2, 5, some 30000, .completed⟩] []) 1 1
        "1234567890123456" "12/30" "123" none
      = (AppState.mk [⟨1, 1, sampleRoom, 2, 5, some 30000, .completed⟩] [],
          some .alreadyCompleted) ∧
    (∃ st', createPayment
        (AppState.mk (processRequests [⟨1, sampleRoom, 2, 5⟩]) []) 1 1
        "1234567890123456" "12/30" "123" none = (st', none) ∧
      (∃ b', findBooking st' 1 1 = some b' ∧ b'.payment_status = .completed) ∧
      paymentsFor st' 1 = 1 ∧
      createPayment st' 1 1 "1234567890123456" "12/30" "123" none
        = (st', some .alreadyCompleted)) :=
  ⟨c6_payment_double_rejection.1 _ 1 1 _ _ _ none
      ⟨1, 1, sampleRoom, 2, 5, some 30000, .completed⟩ (by decide) rfl,
   c6_payment_double_rejection.2 _ 1 1 _ _ _ none
      (bookingSave
        { id := 1, user := 1, room := sampleRoom, check_in_date := 2,
          check_out_date := 5, total_booking_price := none,
          payment_status := .pending })
      (by decide) (by decide) (by decide) (by decide) (by decide)⟩

/-- C7: the persisted charge amount is the price per night of the booked
room; the client-submitted amount never influences the outcome — the run
with any other submitted amount produces the identical state. -/
theorem c7_amount_server_derived :
    ∀ (st : AppState) (u bid : Nat) (cn ce cv : String) (a₁ a₂ : Option Int)
      (st' : AppState) (b : Booking),
      findBooking st bid u = some b →
      createPayment st u bid cn ce cv a₁ = (st', none) →
      createPayment st u bid cn ce cv a₂ = (st', none) ∧
      ∃ p, st'.payments = st.payments ++ [p] ∧
        p.amount = b.room.price_per_night := by
  intro st u bid cn ce cv a1 a2 st' b hfind hrun
  obtain ⟨b2, hfind2, hb2, hcn, hcv, hst⟩ :=
    createPayment_none_inv st u bid cn ce cv a1 st' hrun
  have hbb : b2 = b := by
    rw [hfind] at hfind2
    exact (Option.some.inj hfind2).symm
  rw [hbb] at hst
  constructor
  · have heq : createPayment st u bid cn ce cv a2
        = createPayment st u bid cn ce cv a1 := rfl
    rw [heq]
    exact hrun
  · refine ⟨paymentSave
      { booking_id := bid, card_number := maskCardNumber cn,
        card_expiry := ce, card_cvv := cv,
        amount := b.room.price_per_night }, ?_, rfl⟩
    rw [hst]

/-- Witness for C7: with a client-submitted amount of 99 cents, the
charge is still the 10000 cents of the room. -/
theorem c7_amount_server_derived_witness :
    createPayment (AppState.mk (processRequests [⟨1, sampleRoom, 2, 5⟩]) []) 1 1
        "1234567890123456" "12/30" "123" (some 99)
      = (AppState.mk [⟨1, 1, sampleRoom, 2, 5, some 30000, .completed⟩]
          [⟨1, "**** **** **** 3456", "12/30", "123", 10000⟩], none) ∧
    ∃ p, (AppState.mk [⟨1, 1, sampleRoom, 2, 5, some 30000, .completed⟩]
          [⟨1, "**** **** **** 3456", "12/30", "123", 10000⟩]).payments
        = (AppState.mk (processRequests [⟨1, sampleRoom, 2, 5⟩]) []).payments ++ [p] ∧
      p.amount = (bookingSave
        { id := 1, user := 1, room := sampleRoom, check_in_date := 2,
          check_out_date := 5, total_booking_price := none,
          payment_status := .pending }).room.price_per_night :=
  c7_amount_server_derived _ 1 1 "1234567890123456" "12/30" "123"
    (some 5) (some 99) _
    (bookingSave
      { id := 1, user := 1, room := sampleRoom, check_in_date := 2,
        check_out_date := 5, total_booking_price := none,
        payment_status := .pending })
    (by decide) (by decide)

/-- C8: the card number persisted with a successful payment is the mask
prefix followed by the last four characters of the submitted number, and
the digits it retains are exactly those last four. -/
theorem c8_card_masking :
    ∀ (st : AppState) (u bid : Nat) (cn ce cv : String) (amt : Option Int)
      (st' : AppState),
      validCardNumber cn = true →
      createPayment st u bid cn ce cv amt = (st', none) →
      ∃ p, st'.payments = st.payments ++ [p] ∧
        p.card_number.data = "**** **** **** ".data ++ cn.data.drop 12 ∧
        p.card_number.data.filter (fun c => c.isDigit) = cn.data.drop 12 := by
  intro st u bid cn ce cv amt st' hcn hrun
  obtain ⟨b, hfind, hb, hcn2, hcv, hst⟩ :=
    createPayment_none_inv st u bid cn ce cv amt st' hrun
  have h16 : cn.data.length = 16 := by
    unfold validCardNumber at hcn
    rw [Bool.and_eq_true] at hcn
    simpa using hcn.2
  have hall : ∀ c ∈ cn.data, c.isDigit = true := by
    unfold validCardNumber at hcn
    rw [Bool.and_eq_true] at hcn
    exact fun c hc => List.all_eq_true.mp hcn.1 c hc
  have hdata : (paymentSave
      { booking_id := bid, card_number := maskCardNumber cn,
        card_expiry := ce, card_cvv := cv,
        amount := b.room.price_per_night }).card_number.data
      = "**** **** **** ".data ++ cn.data.drop 12 := by
    show pyStrip (maskCardNumber cn).data = _
    exact pyStrip_mask_data cn hall h16
  refine ⟨_, by rw [hst], hdata, ?_⟩
  rw [hdata]
  exact filter_digits_mask cn hall

/-- Witness for C8: card 1234567890123456 is stored as the mask prefix
plus 3456, and 3456 are the only digits stored. -/
theorem c8_card_masking_witness :
    ∃ p, (AppState.mk [⟨1, 1, sampleRoom, 2, 5, some 30000, .completed⟩]
          [⟨1, "**** **** **** 3456", "12/30", "123", 10000⟩]).payments
        = (AppState.mk (processRequests [⟨1, sampleRoom, 2, 5⟩]) []).payments ++ [p] ∧
      p.card_number.data
        = "**** **** **** ".data ++ "1234567890123456".data.drop 12 ∧
      p.card_number.data.filter (fun c => c.isDigit)
        = "1234567890123456".data.drop 12 :=
  c8_card_masking _ 1 1 "1234567890123456" "12/30" "123" none _
    (by decide) (by decide)

/-- C10: the simulated gateway always succeeds, so every request that
passes the lookup, the not-already-completed check and the card checks
completes a payment, and no run introduces a failed status: any failed
booking in the output state was already stored before. -/
theorem c10_failure_unreachable :
    ∀ (st : AppState) (u bid : Nat) (cn ce cv : String) (amt : Option Int)
      (b : Booking),
      findBooking st bid u = some b →
      b.payment_status ≠ .completed →
      validCardNumber cn = true →
      validCvv cv = true →
      ∃ st', createPayment st u bid cn ce cv amt = (st', none) ∧
        ∀ b' ∈ st'.bookings, b'.payment_status = .failed → b' ∈ st.bookings := by
  intro st u bid cn ce cv amt b hfind hb hcn hcv
  refine ⟨_, createPayment_success st u bid cn ce cv amt b hfind hb hcn hcv, ?_⟩
  intro b' hb' hfail
  obtain ⟨x, hx, hfx⟩ := List.mem_map.mp hb'
  by_cases hid : (x.id == bid) = true
  · rw [if_pos hid] at hfx
    rw [← hfx] at hfail
    simp [bookingSave] at hfail
  · rw [if_neg hid] at hfx
    rw [← hfx]
    exact hx

/-- Witness for C10: the sample pending booking pays successfully and no
booking of the resulting state is failed unless it already was. -/
theorem c10_failure_unreachable_witness :
    ∃ st', createPayment
        (AppState.mk (processRequests [⟨1, sampleRoom, 2, 5⟩]) []) 1 1
        "1234567890123456" "12/30" "123" none = (st', none) ∧
      ∀ b' ∈ st'.bookings, b'.payment_status = .failed →
        b' ∈ (AppState.mk (processRequests [⟨1, sampleRoom, 2, 5⟩]) []).bookings :=
  c10_failure_unreachable _ 1 1 "1234567890123456" "12/30" "123" none
    (bookingSave
      { id := 1, user := 1, room := sampleRoom, check_in_date := 2,
        check_out_date := 5, total_booking_price := none,
        payment_status := .pending })
    (by decide) (by decide) (by decide) (by decide)
